import Mathlib

/-!
# Verification of the ulauncher-openai-translate event handlers

Shallow embedding of `main.py`. The plugin subscribes a
`KeywordQueryEventListener` to keyword-query events and a
`PreferencesEventListener` to preferences events. Both handlers read the
preference values, maintain the extension's cached OpenAI client (the mutable
attributes `extension.openai_client` and `extension._current_base_url`), and
the query handler renders a one-element result list.

External effects are modelled explicitly: the fallible `OpenAI(**kwargs)`
constructor and the fallible `client.chat.completions.create(...)` call are
oracles in an `Env` record, and the query handler's outcome records, besides
the rendered items and the updated state, every construction attempted and
every chat request issued, so that "no network call" is a provable statement.
-/

namespace UlauncherOpenAITranslate

/-- A chat message `{"role": ..., "content": ...}` as built at
`main.py` lines 79-90. -/
structure Message where
  role : String
  content : String
deriving DecidableEq, Repr

/-- The client returned by `OpenAI(**client_kwargs)`: bound to the `api_key`
kwarg and to the `base_url` kwarg when one was passed (`main.py` lines 47-50;
the `base_url` kwarg is only passed when the stripped preference is
non-empty). -/
structure OpenAIClient where
  api_key : String
  base_url : Option String
deriving DecidableEq, Repr

/-- The mutable attributes of the `OpenAITranslateExtension` object that the
listeners read and write: `openai_client` (initialised to `None` at line 23)
and the ad-hoc `_current_base_url` attribute, read with
`getattr(extension, '_current_base_url', None)` at line 115; `none` models
both `None` and an absent attribute. -/
structure ExtState where
  openai_client : Option OpenAIClient
  current_base_url : Option String
deriving DecidableEq, Repr

/-- The one activate action the plugin emits: `CopyToClipboardAction(text)`. -/
inductive Action where
  | copyToClipboard : String → Action
deriving DecidableEq, Repr

/-- An `ExtensionResultItem(icon=..., name=..., description=...,
highlightable=..., on_enter=...)`; `highlightable` defaults to `true` and
`on_enter` to `none` when the keyword is not passed, as in the host library. -/
structure ExtensionResultItem where
  icon : String
  name : String
  description : String
  highlightable : Bool := true
  on_enter : Option Action := none
deriving DecidableEq, Repr

/-- One outbound `client.chat.completions.create(messages=..., model=...)`
request (line 93-96), together with the client object it was invoked on. -/
structure ChatRequest where
  client : OpenAIClient
  messages : List Message
  model : String
deriving DecidableEq, Repr

/-- The four preference values the handlers read (lines 32-35 and 122-123);
`none` models a key missing from `extension.preferences`. -/
structure Preferences where
  openai_api_key : Option String
  base_url : Option String
  custom_prompt : Option String
  model_name : Option String
deriving DecidableEq, Repr

/-- Oracles for the two fallible external operations.
`initErr kwargs = some e` means `OpenAI(**kwargs)` raises an exception whose
string rendering is `e`; `initErr kwargs = none` means it succeeds and returns
the client bound to those kwargs. `chat c msgs model` is the combined outcome
of `c.chat.completions.create(messages=msgs, model=model)` and the extraction
`choices[0].message.content`: `Except.ok s` is the extracted content string,
`Except.error e` any exception raised on the way. -/
structure Env where
  initErr : OpenAIClient → Option String
  chat : OpenAIClient → List Message → String → Except String String

/-- Python truthiness of a `preferences.get(key)` / `event.get_argument()`
value that is either a string or `None`: falsy iff `None` or `""`. -/
def pyFalsy : Option String → Bool
  | none => true
  | some s => s == ""

/-- The whitespace set of Python's default `str.strip()`:
`" \t\n\r\x0b\x0c"`. -/
def pyIsSpace (c : Char) : Bool :=
  [' ', '\t', '\n', '\r', '\x0b', '\x0c'].contains c

/-- Python's `str.strip()` with no argument: remove leading and trailing
whitespace. (Modelled as the character-list computation; Lean's own
`String.trim` is extensionally the same on the claim-relevant inputs but is
not kernel-reducible.) -/
def pyStrip (s : String) : String :=
  ⟨((s.data.dropWhile pyIsSpace).reverse.dropWhile pyIsSpace).reverse⟩

/-- The icon path passed to every result item. -/
def iconPath : String := "images/icon.png"

/-- The `default_system_prompt` string literal of line 86. -/
def default_system_prompt : String :=
  "You are a useful translation assistant. Please translate my Chinese into English and translate all non-Chinese into Chinese. Everything I send you is content that needs translation; you only need to provide the translation results. The translation results should conform to Chinese language habits."

/-- The missing-API-key item (lines 38-41). -/
def missingKeyItem : ExtensionResultItem :=
  ⟨iconPath, "OpenAI API Key Missing",
   "Please set your OpenAI API Key in Ulauncher preferences.", false, none⟩

/-- The client-initialisation-failure item (lines 54-57). -/
def initErrorItem (e : String) : ExtensionResultItem :=
  ⟨iconPath, "Error initializing OpenAI client", e, false, none⟩

/-- The empty-query prompt item (lines 61-64 and 72-75). -/
def promptItem : ExtensionResultItem :=
  ⟨iconPath, "Type something to translate",
   "Enter text to translate using OpenAI", false, none⟩

/-- The success item (lines 99-102): actionable, titled by the translated
text, whose enter action copies that text to the clipboard. -/
def translationItem (t : String) : ExtensionResultItem :=
  ⟨iconPath, t, "Press Enter to copy to clipboard", true,
   some (Action.copyToClipboard t)⟩

/-- The translation-failure item (lines 106-109); the description is
`f'{e}\nCheck logs for details'`. -/
def translationErrorItem (e : String) : ExtensionResultItem :=
  ⟨iconPath, "Error during translation", e ++ "\nCheck logs for details",
   false, none⟩

/-- The `client_kwargs` dict of lines 47-49: always the api key, plus the
`base_url` kwarg exactly when the stripped preference is non-empty. -/
def clientFor (openai_api_key base_url : String) : OpenAIClient :=
  ⟨openai_api_key, if base_url ≠ "" then some base_url else none⟩

/-- The message list built at lines 79-90: the system message uses the
(stripped) custom prompt when truthy, else the default prompt; then the user
message carrying the text to translate. -/
def buildMessages (custom_prompt text_to_translate : String) : List Message :=
  [⟨"system", if custom_prompt ≠ "" then custom_prompt else default_system_prompt⟩,
   ⟨"user", text_to_translate⟩]

/-- Outcome of one keyword-query event: the items of the returned
`RenderResultListAction`, the extension state after the handler returns, the
`OpenAI(...)` constructions attempted and the chat requests issued, in order. -/
structure QueryOutcome where
  action : List ExtensionResultItem
  state : ExtState
  constructions : List OpenAIClient
  requests : List ChatRequest
deriving DecidableEq, Repr

namespace KeywordQueryEventListener

/-- `_need_client_update` (lines 113-116): the client must be rebuilt iff the
recorded `_current_base_url` (absent attribute ↦ `none`) differs from the
new stripped base url. -/
def need_client_update (st : ExtState) (new_base_url : String) : Bool :=
  st.current_base_url != some new_base_url

/-- Lines 60-111, run once a usable client `c` is in hand: the empty-query
short-circuits, message construction, the remote call and result rendering.
Returns the rendered items and the chat requests issued. -/
def runQuery (env : Env) (c : OpenAIClient) (custom_prompt model_name : String)
    (query : Option String) : List ExtensionResultItem × List ChatRequest :=
  if pyFalsy query then
    ([promptItem], [])
  else
    let text_to_translate := pyStrip (query.getD "")
    if text_to_translate == "" then
      ([promptItem], [])
    else
      let messages := buildMessages custom_prompt text_to_translate
      match env.chat c messages model_name with
      | Except.ok content =>
          ([translationItem (pyStrip content)], [⟨c, messages, model_name⟩])
      | Except.error e =>
          ([translationErrorItem e], [⟨c, messages, model_name⟩])

/-- Lines 46-58 followed by the rest of the handler: attempt to construct a
new client from the current `(api_key, base_url)`. On failure the handler
returns the error item at once and, the two assignments of lines 50-51 never
having executed, the extension state is untouched; on success the new client
and the current base url are recorded and the query proceeds with the new
client. -/
def rebuildAndRun (env : Env) (openai_api_key base_url custom_prompt model_name : String)
    (query : Option String) (st : ExtState) : QueryOutcome :=
  let client_kwargs := clientFor openai_api_key base_url
  match env.initErr client_kwargs with
  | some e => ⟨[initErrorItem e], st, [client_kwargs], []⟩
  | none =>
      let r := runQuery env client_kwargs custom_prompt model_name query
      ⟨r.1, ⟨some client_kwargs, some base_url⟩, [client_kwargs], r.2⟩

/-- `KeywordQueryEventListener.on_event` (lines 27-111). `query` is
`event.get_argument()` (possibly `None`); the preference reads and `.strip()`
calls mirror lines 32-35; the client is rebuilt when none is cached or
`_need_client_update` holds, exactly the `or` of line 45. -/
def on_event (env : Env) (prefs : Preferences) (query : Option String)
    (st : ExtState) : QueryOutcome :=
  let base_url := pyStrip (prefs.base_url.getD "")
  let custom_prompt := pyStrip (prefs.custom_prompt.getD "")
  let model_name := pyStrip (prefs.model_name.getD "gpt-4o-mini")
  if pyFalsy prefs.openai_api_key then
    ⟨[missingKeyItem], st, [], []⟩
  else
    let openai_api_key := prefs.openai_api_key.getD ""
    match st.openai_client with
    | none => rebuildAndRun env openai_api_key base_url custom_prompt model_name query st
    | some c =>
        if need_client_update st base_url then
          rebuildAndRun env openai_api_key base_url custom_prompt model_name query st
        else
          let r := runQuery env c custom_prompt model_name query
          ⟨r.1, st, [], r.2⟩

end KeywordQueryEventListener

namespace PreferencesEventListener

/-- `PreferencesEventListener.on_event` (lines 120-136): with a truthy api
key, rebuild the client (on failure line 134 sets `openai_client = None`,
leaving `_current_base_url` as it was); with a falsy api key, set
`openai_client = None` (line 136), again leaving `_current_base_url`
untouched. -/
def on_event (env : Env) (prefs : Preferences) (st : ExtState) : ExtState :=
  let base_url := pyStrip (prefs.base_url.getD "")
  if pyFalsy prefs.openai_api_key then
    ⟨none, st.current_base_url⟩
  else
    let openai_api_key := prefs.openai_api_key.getD ""
    let client_kwargs := clientFor openai_api_key base_url
    match env.initErr client_kwargs with
    | some _ => ⟨none, st.current_base_url⟩
    | none => ⟨some client_kwargs, some base_url⟩

end PreferencesEventListener

open KeywordQueryEventListener

/-! ## Helper lemmas -/

theorem runQuery_fst_length (env : Env) (c : OpenAIClient)
    (custom_prompt model_name : String) (query : Option String) :
    ((runQuery env c custom_prompt model_name query).1).length = 1 := by
  unfold runQuery
  split
  · rfl
  · dsimp only
    split
    · rfl
    · split <;> rfl

theorem rebuildAndRun_action_length (env : Env)
    (openai_api_key base_url custom_prompt model_name : String)
    (query : Option String) (st : ExtState) :
    ((rebuildAndRun env openai_api_key base_url custom_prompt model_name query st).action).length = 1 := by
  unfold rebuildAndRun
  dsimp only
  split
  · rfl
  · exact runQuery_fst_length ..

theorem on_event_action_length (env : Env) (prefs : Preferences)
    (query : Option String) (st : ExtState) :
    ((on_event env prefs query st).action).length = 1 := by
  unfold on_event
  dsimp only
  split
  · rfl
  · split
    · exact rebuildAndRun_action_length ..
    · split
      · exact rebuildAndRun_action_length ..
      · exact runQuery_fst_length ..

theorem pyFalsy_some_eq_false {k : String} (hk : k ≠ "") :
    pyFalsy (some k) = false := by
  simp [pyFalsy, hk]

theorem need_client_update_of_ne {st : ExtState} {bu : String}
    (h : st.current_base_url ≠ some bu) : need_client_update st bu = true := by
  simp [need_client_update, h]

theorem pyStrip_empty : pyStrip "" = "" := rfl

/-- On a falsy or whitespace-only query, `runQuery` renders the prompt item
and issues no request. -/
theorem runQuery_empty_query (env : Env) (c : OpenAIClient)
    (custom_prompt model_name : String) (query : Option String)
    (h : pyStrip (query.getD "") = "") :
    runQuery env c custom_prompt model_name query = ([promptItem], []) := by
  unfold runQuery
  rcases query with _ | q
  · rfl
  · simp only [Option.getD] at h ⊢
    by_cases hq : q = ""
    · subst hq; rfl
    · simp [pyFalsy, hq, h]

/-- On a truthy query with non-whitespace content, `runQuery` builds the two
messages, issues exactly one request with them, and renders the item the chat
outcome dictates. -/
theorem runQuery_live_query (env : Env) (c : OpenAIClient)
    (custom_prompt model_name q : String) (hq : pyStrip q ≠ "") :
    runQuery env c custom_prompt model_name (some q) =
      ((match env.chat c (buildMessages custom_prompt (pyStrip q)) model_name with
        | Except.ok content => [translationItem (pyStrip content)]
        | Except.error e => [translationErrorItem e]),
       [⟨c, buildMessages custom_prompt (pyStrip q), model_name⟩]) := by
  have hq0 : q ≠ "" := by
    intro h
    exact hq (by rw [h]; rfl)
  unfold runQuery
  rcases hchat : env.chat c (buildMessages custom_prompt (pyStrip q)) model_name with content | e <;>
    simp [pyFalsy, hq0, hq, hchat]

/-- Every request `runQuery` issues is on the client it was handed. -/
theorem runQuery_requests_client (env : Env) (c : OpenAIClient)
    (custom_prompt model_name : String) (query : Option String) :
    ∀ r ∈ (runQuery env c custom_prompt model_name query).2, r.client = c := by
  unfold runQuery
  split
  · simp
  · dsimp only
    split
    · simp
    · split <;> simp_all

/-- When the constructor fails, `rebuildAndRun` returns the init-error item,
leaves the state untouched, records the attempted construction, and issues no
request. -/
theorem rebuildAndRun_init_failure (env : Env)
    (openai_api_key base_url custom_prompt model_name e : String)
    (query : Option String) (st : ExtState)
    (hfail : env.initErr (clientFor openai_api_key base_url) = some e) :
    rebuildAndRun env openai_api_key base_url custom_prompt model_name query st =
      ⟨[initErrorItem e], st, [clientFor openai_api_key base_url], []⟩ := by
  unfold rebuildAndRun
  dsimp only
  rw [hfail]

/-- When the constructor succeeds, `rebuildAndRun` records the new client and
base url and continues as `runQuery` on the new client. -/
theorem rebuildAndRun_init_success (env : Env)
    (openai_api_key base_url custom_prompt model_name : String)
    (query : Option String) (st : ExtState)
    (hok : env.initErr (clientFor openai_api_key base_url) = none) :
    rebuildAndRun env openai_api_key base_url custom_prompt model_name query st =
      ⟨(runQuery env (clientFor openai_api_key base_url) custom_prompt model_name query).1,
       ⟨some (clientFor openai_api_key base_url), some base_url⟩,
       [clientFor openai_api_key base_url],
       (runQuery env (clientFor openai_api_key base_url) custom_prompt model_name query).2⟩ := by
  unfold rebuildAndRun
  dsimp only
  rw [hok]

/-- With a truthy api key and an always-succeeding constructor, the handler's
items and requests are those of `runQuery` on some client. -/
theorem on_event_with_usable_client (env : Env) (prefs : Preferences)
    (query : Option String) (st : ExtState) (k : String)
    (hk : prefs.openai_api_key = some k) (hk0 : k ≠ "")
    (hinit : ∀ kw, env.initErr kw = none) :
    ∃ c, (on_event env prefs query st).action =
          (runQuery env c (pyStrip (prefs.custom_prompt.getD ""))
            (pyStrip (prefs.model_name.getD "gpt-4o-mini")) query).1 ∧
        (on_event env prefs query st).requests =
          (runQuery env c (pyStrip (prefs.custom_prompt.getD ""))
            (pyStrip (prefs.model_name.getD "gpt-4o-mini")) query).2 := by
  unfold on_event
  dsimp only
  rw [hk]
  simp only [Option.getD_some, pyFalsy_some_eq_false hk0, Bool.false_eq_true, if_false]
  cases hc : st.openai_client with
  | none =>
      dsimp only
      refine ⟨clientFor k (pyStrip (prefs.base_url.getD "")), ?_, ?_⟩ <;>
        rw [rebuildAndRun_init_success env k _ _ _ query st (hinit _)]
  | some c =>
      dsimp only
      by_cases hupd : need_client_update st (pyStrip (prefs.base_url.getD "")) = true
      · rw [if_pos hupd]
        refine ⟨clientFor k (pyStrip (prefs.base_url.getD "")), ?_, ?_⟩ <;>
          rw [rebuildAndRun_init_success env k _ _ _ query st (hinit _)]
      · rw [if_neg hupd]
        exact ⟨c, rfl, rfl⟩

/-- With a truthy api key, a rebuild trigger (no cached client, or a recorded
base url that differs) and a failing constructor, the handler returns exactly
the init-error item and the state is untouched. -/
theorem on_event_init_failure (env : Env) (prefs : Preferences)
    (query : Option String) (st : ExtState) (k e : String)
    (hk : prefs.openai_api_key = some k) (hk0 : k ≠ "")
    (htrig : st.openai_client = none ∨
      st.current_base_url ≠ some (pyStrip (prefs.base_url.getD "")))
    (hfail : env.initErr (clientFor k (pyStrip (prefs.base_url.getD ""))) = some e) :
    on_event env prefs query st =
      ⟨[initErrorItem e], st, [clientFor k (pyStrip (prefs.base_url.getD ""))], []⟩ := by
  unfold on_event
  dsimp only
  rw [hk]
  simp only [Option.getD_some, pyFalsy_some_eq_false hk0, Bool.false_eq_true, if_false]
  cases hc : st.openai_client with
  | none =>
      dsimp only
      exact rebuildAndRun_init_failure env k _ _ _ e query st hfail
  | some c =>
      dsimp only
      rcases htrig with htrig | htrig
      · rw [hc] at htrig; cases htrig
      · rw [if_pos (need_client_update_of_ne htrig),
          rebuildAndRun_init_failure env k _ _ _ e query st hfail]

/-! ## Claim theorems -/

/-- C8: for every environment, preference map, query argument and prior
state, the result list rendered by the keyword-query handler contains exactly
one item — on the success path and on every error and short-circuit path. -/
theorem C8_exactly_one_result_item (env : Env) (prefs : Preferences)
    (query : Option String) (st : ExtState) :
    ((on_event env prefs query st).action).length = 1 :=
  on_event_action_length env prefs query st

/-- C6: when the `openai_api_key` preference is missing or empty, the handler
returns exactly the missing-key item (non-actionable), leaves the state
untouched, attempts no client construction and issues no chat request. -/
theorem C6_missing_key_short_circuit (env : Env) (prefs : Preferences)
    (query : Option String) (st : ExtState)
    (h : prefs.openai_api_key = none ∨ prefs.openai_api_key = some "") :
    on_event env prefs query st = ⟨[missingKeyItem], st, [], []⟩ := by
  unfold on_event
  rcases h with h | h <;> rw [h] <;> rfl

/-- Witness for C6 at a concrete input. -/
theorem C6_missing_key_short_circuit_witness :
    on_event ⟨fun _ => none, fun _ _ _ => Except.ok "x"⟩
        ⟨none, none, none, none⟩ (some "hello") ⟨none, none⟩ =
      ⟨[missingKeyItem], ⟨none, none⟩, [], []⟩ :=
  C6_missing_key_short_circuit _ _ _ _ (Or.inl rfl)

/-- An environment whose constructor always succeeds and whose chat call
always returns `resp`. -/
def okEnv (resp : String) : Env :=
  ⟨fun _ => none, fun _ _ _ => Except.ok resp⟩

/-- An environment whose constructor always succeeds and whose chat call
always raises `e`. -/
def chatFailEnv (e : String) : Env :=
  ⟨fun _ => some e, fun _ _ _ => Except.error e⟩

/-- C7: with a usable configuration (truthy api key, succeeding constructor)
and a query argument that is missing, empty, or whitespace-only after
stripping, the handler renders exactly the non-actionable "Type something to
translate" prompt item and issues no chat request. -/
theorem C7_empty_query_prompt (env : Env) (prefs : Preferences)
    (query : Option String) (st : ExtState) (k : String)
    (hk : prefs.openai_api_key = some k) (hk0 : k ≠ "")
    (hinit : ∀ kw, env.initErr kw = none)
    (hq : pyStrip (query.getD "") = "") :
    (on_event env prefs query st).action = [promptItem] ∧
    (on_event env prefs query st).requests = [] := by
  obtain ⟨c, ha, hr⟩ := on_event_with_usable_client env prefs query st k hk hk0 hinit
  rw [ha, hr, runQuery_empty_query env c _ _ query hq]
  exact ⟨rfl, rfl⟩

/-- Witness for C7 at a concrete whitespace-only input. -/
theorem C7_empty_query_prompt_witness :
    (on_event (okEnv "x") ⟨some "k", some "", some "", none⟩
        (some "   ") ⟨none, none⟩).action = [promptItem] ∧
    (on_event (okEnv "x") ⟨some "k", some "", some "", none⟩
        (some "   ") ⟨none, none⟩).requests = [] :=
  C7_empty_query_prompt (okEnv "x") ⟨some "k", some "", some "", none⟩
    (some "   ") ⟨none, none⟩ "k" rfl (by decide) (fun _ => rfl) (by decide)

/-- C5: for every query that reaches message construction, a configuration
whose custom-prompt value is the empty string yields the fixed default
instruction as the system message, and a non-empty value is used exactly,
overriding the default. -/
theorem C5_custom_prompt_override (env : Env) (prefs : Preferences)
    (st : ExtState) (k cp q : String)
    (hk : prefs.openai_api_key = some k) (hk0 : k ≠ "")
    (hcp : prefs.custom_prompt = some cp) (hcps : pyStrip cp = cp)
    (hinit : ∀ kw, env.initErr kw = none)
    (hq : pyStrip q ≠ "") :
    ∃ r, (on_event env prefs (some q) st).requests = [r] ∧
      (cp = "" → r.messages.head? = some ⟨"system", default_system_prompt⟩) ∧
      (cp ≠ "" → r.messages.head? = some ⟨"system", cp⟩) := by
  obtain ⟨c, _, hr⟩ := on_event_with_usable_client env prefs (some q) st k hk hk0 hinit
  rw [hcp] at hr
  simp only [Option.getD_some] at hr
  rw [hcps, runQuery_live_query env c cp _ q hq] at hr
  refine ⟨_, hr, fun h => ?_, fun h => ?_⟩ <;> simp [buildMessages, h]

/-- Witness for C5 with the custom prompt "X". -/
theorem C5_custom_prompt_override_witness :
    ∃ r, (on_event (okEnv "resp") ⟨some "k", none, some "X", none⟩
        (some "hello") ⟨none, none⟩).requests = [r] ∧
      ("X" = "" → r.messages.head? = some ⟨"system", default_system_prompt⟩) ∧
      ("X" ≠ "" → r.messages.head? = some ⟨"system", "X"⟩) :=
  C5_custom_prompt_override (okEnv "resp") ⟨some "k", none, some "X", none⟩
    ⟨none, none⟩ "k" "X" "hello" rfl (by decide) rfl (by decide)
    (fun _ => rfl) (by decide)

/-- C9: the custom-prompt preference value is stripped before the truthiness
check, so a whitespace-only value falls back to the default instruction and a
value with surrounding whitespace is used with that whitespace removed. -/
theorem C9_custom_prompt_stripped (env : Env) (prefs : Preferences)
    (st : ExtState) (k p q : String)
    (hk : prefs.openai_api_key = some k) (hk0 : k ≠ "")
    (hcp : prefs.custom_prompt = some p)
    (hinit : ∀ kw, env.initErr kw = none)
    (hq : pyStrip q ≠ "") :
    ∃ r, (on_event env prefs (some q) st).requests = [r] ∧
      (pyStrip p = "" → r.messages.head? = some ⟨"system", default_system_prompt⟩) ∧
      (pyStrip p ≠ "" → r.messages.head? = some ⟨"system", pyStrip p⟩) := by
  obtain ⟨c, _, hr⟩ := on_event_with_usable_client env prefs (some q) st k hk hk0 hinit
  rw [hcp] at hr
  simp only [Option.getD_some] at hr
  rw [runQuery_live_query env c (pyStrip p) _ q hq] at hr
  refine ⟨_, hr, fun h => ?_, fun h => ?_⟩ <;> simp [buildMessages, h]

/-- Witness for C9 with a whitespace-only custom prompt. -/
theorem C9_custom_prompt_stripped_witness :
    ∃ r, (on_event (okEnv "resp") ⟨some "k", none, some "  ", none⟩
        (some "hello") ⟨none, none⟩).requests = [r] ∧
      (pyStrip "  " = "" → r.messages.head? = some ⟨"system", default_system_prompt⟩) ∧
      (pyStrip "  " ≠ "" → r.messages.head? = some ⟨"system", pyStrip "  "⟩) :=
  C9_custom_prompt_stripped (okEnv "resp") ⟨some "k", none, some "  ", none⟩
    ⟨none, none⟩ "k" "  " "hello" rfl (by decide) rfl (fun _ => rfl) (by decide)

/-- C1: for a configuration with a truthy api key, empty base url, empty
custom prompt and model "gpt-4o-mini", and a non-whitespace input, the
handler issues exactly one chat request whose messages are the default system
prompt followed by the stripped input and whose model is "gpt-4o-mini"; on a
successful response it renders one actionable item titled by the stripped
response content, whose enter action copies that same text to the
clipboard. -/
theorem C1_end_to_end_success (env : Env) (prefs : Preferences)
    (st : ExtState) (k q resp : String)
    (hk : prefs.openai_api_key = some k) (hk0 : k ≠ "")
    (_hbu : pyStrip (prefs.base_url.getD "") = "")
    (hcp : pyStrip (prefs.custom_prompt.getD "") = "")
    (hmn : pyStrip (prefs.model_name.getD "gpt-4o-mini") = "gpt-4o-mini")
    (hinit : ∀ kw, env.initErr kw = none)
    (hq : pyStrip q ≠ "")
    (hchat : ∀ c, env.chat c (buildMessages "" (pyStrip q)) "gpt-4o-mini"
      = Except.ok resp) :
    ∃ c, (on_event env prefs (some q) st).requests =
        [⟨c, [⟨"system", default_system_prompt⟩, ⟨"user", pyStrip q⟩], "gpt-4o-mini"⟩] ∧
      (on_event env prefs (some q) st).action = [translationItem (pyStrip resp)] := by
  obtain ⟨c, ha, hr⟩ := on_event_with_usable_client env prefs (some q) st k hk hk0 hinit
  rw [hcp, hmn, runQuery_live_query env c "" "gpt-4o-mini" q hq] at ha hr
  simp only [hchat c] at ha
  refine ⟨c, ?_, ha⟩
  rw [hr]
  simp [buildMessages]

/-- Witness for C1: input "hello", mocked response "你好". -/
theorem C1_end_to_end_success_witness :
    ∃ c, (on_event (okEnv "你好") ⟨some "k", some "", some "", some "gpt-4o-mini"⟩
        (some "hello") ⟨none, none⟩).requests =
        [⟨c, [⟨"system", default_system_prompt⟩, ⟨"user", pyStrip "hello"⟩], "gpt-4o-mini"⟩] ∧
      (on_event (okEnv "你好") ⟨some "k", some "", some "", some "gpt-4o-mini"⟩
        (some "hello") ⟨none, none⟩).action = [translationItem (pyStrip "你好")] :=
  C1_end_to_end_success (okEnv "你好") ⟨some "k", some "", some "", some "gpt-4o-mini"⟩
    ⟨none, none⟩ "k" "hello" "你好" rfl (by decide) (by decide) (by decide)
    (by decide) (fun _ => rfl) (by decide) (fun _ => rfl)

/-- C2: the handler always returns a renderable one-item result list; an
exception from client construction yields the single non-actionable
init-error item carrying the error text, and an exception from the remote
chat call yields the single non-actionable "Error during translation" item
whose subtitle contains the raw error text. -/
theorem C2_errors_contained (env : Env) (prefs : Preferences)
    (query : Option String) (st : ExtState) (k e q : String) :
    ((on_event env prefs query st).action).length = 1 ∧
    (prefs.openai_api_key = some k → k ≠ "" →
      (st.openai_client = none ∨
        st.current_base_url ≠ some (pyStrip (prefs.base_url.getD ""))) →
      env.initErr (clientFor k (pyStrip (prefs.base_url.getD ""))) = some e →
      (on_event env prefs query st).action = [initErrorItem e]) ∧
    (prefs.openai_api_key = some k → k ≠ "" →
      (∀ kw, env.initErr kw = none) →
      query = some q → pyStrip q ≠ "" →
      (∀ c msgs, env.chat c msgs (pyStrip (prefs.model_name.getD "gpt-4o-mini"))
        = Except.error e) →
      (on_event env prefs query st).action = [translationErrorItem e]) := by
  refine ⟨on_event_action_length env prefs query st, ?_, ?_⟩
  · intro hk hk0 htrig hfail
    rw [on_event_init_failure env prefs query st k e hk hk0 htrig hfail]
  · intro hk hk0 hinit hq hqs hchat
    subst hq
    obtain ⟨c, ha, _⟩ := on_event_with_usable_client env prefs (some q) st k hk hk0 hinit
    rw [runQuery_live_query env c _ _ q hqs] at ha
    rw [ha]
    simp only [hchat]

/-- Witness for C2: a simulated timeout in the transport yields the single
"Error during translation" item containing the timeout message. -/
theorem C2_errors_contained_witness :
    ((on_event (okEnv "x") ⟨none, none, none, none⟩ none ⟨none, none⟩).action).length = 1 ∧
    (on_event ⟨fun _ => none, fun _ _ _ => Except.error "timed out"⟩
        ⟨some "k", none, none, none⟩ (some "hi") ⟨none, none⟩).action =
      [translationErrorItem "timed out"] :=
  ⟨(C2_errors_contained (okEnv "x") ⟨none, none, none, none⟩ none ⟨none, none⟩
      "k" "e" "q").1,
   (C2_errors_contained ⟨fun _ => none, fun _ _ _ => Except.error "timed out"⟩
      ⟨some "k", none, none, none⟩ (some "hi") ⟨none, none⟩ "k" "timed out" "hi").2.2
    rfl (by decide) (fun _ => rfl) rfl (by decide) (fun _ _ => rfl)⟩

/-- C4: when a client is cached but its recorded base url differs from the
current (stripped) base-url preference, the handler constructs exactly one
new client bound to the current api key and base url; every chat request of
the call is on that new client, and on construction success the new client
and base url replace the old ones in the state. -/
theorem C4_base_url_change_rebuilds (env : Env) (prefs : Preferences)
    (query : Option String) (st : ExtState) (k bu : String) (c : OpenAIClient)
    (hk : prefs.openai_api_key = some k) (hk0 : k ≠ "")
    (hbu : pyStrip (prefs.base_url.getD "") = bu)
    (hc : st.openai_client = some c)
    (hdiff : st.current_base_url ≠ some bu) :
    (on_event env prefs query st).constructions = [clientFor k bu] ∧
    (∀ r ∈ (on_event env prefs query st).requests, r.client = clientFor k bu) ∧
    (env.initErr (clientFor k bu) = none →
      (on_event env prefs query st).state.openai_client = some (clientFor k bu) ∧
      (on_event env prefs query st).state.current_base_url = some bu) := by
  unfold on_event
  dsimp only
  rw [hk]
  simp only [Option.getD_some, pyFalsy_some_eq_false hk0, Bool.false_eq_true, if_false]
  rw [hc]
  dsimp only
  rw [hbu, if_pos (need_client_update_of_ne hdiff)]
  cases hini : env.initErr (clientFor k bu) with
  | some e =>
      rw [rebuildAndRun_init_failure env k bu _ _ e query st hini]
      refine ⟨rfl, by simp, fun h => ?_⟩
      simp [hini] at h
  | none =>
      rw [rebuildAndRun_init_success env k bu _ _ query st hini]
      exact ⟨rfl, runQuery_requests_client env (clientFor k bu) _ _ query,
        fun _ => ⟨rfl, rfl⟩⟩

/-- Witness for C4: recorded base url "" (provider default), new preference
"https://alt", same api key. -/
theorem C4_base_url_change_rebuilds_witness :
    (on_event (okEnv "resp") ⟨some "k", some "https://alt", none, none⟩
        (some "hi") ⟨some ⟨"k", none⟩, some ""⟩).constructions =
      [clientFor "k" "https://alt"] ∧
    (on_event (okEnv "resp") ⟨some "k", some "https://alt", none, none⟩
        (some "hi") ⟨some ⟨"k", none⟩, some ""⟩).state.openai_client =
      some (clientFor "k" "https://alt") := by
  have h := C4_base_url_change_rebuilds (okEnv "resp")
    ⟨some "k", some "https://alt", none, none⟩ (some "hi")
    ⟨some ⟨"k", none⟩, some ""⟩ "k" "https://alt" ⟨"k", none⟩
    rfl (by decide) (by decide) rfl (by decide)
  exact ⟨h.1, (h.2.2 rfl).1⟩

/-- C3 counterexample: construction fails on the query path with an old
client cached, and the old client is NOT set to none — the failed assignment
of line 50 never executes, so `extension.openai_client` keeps its previous
value. -/
theorem C3_counterexample_client_not_discarded :
    (on_event (chatFailEnv "boom") ⟨some "k", some "b", some "", some ""⟩
        (some "hi") ⟨some ⟨"k", some "a"⟩, some "a"⟩).action
      = [initErrorItem "boom"] ∧
    (on_event (chatFailEnv "boom") ⟨some "k", some "b", some "", some ""⟩
        (some "hi") ⟨some ⟨"k", some "a"⟩, some "a"⟩).state.openai_client
      = some ⟨"k", some "a"⟩ ∧
    some (⟨"k", some "a"⟩ : OpenAIClient) ≠ none := by
  decide

/-- C3 as amended: when client construction fails during the query handler,
the handler returns the single non-actionable init-error item carrying the
error text and issues no chat request (so the old client is not used in that
call), but the extension state — cached client and recorded base url — is
left exactly as it was: the old client is not set to none. -/
theorem C3_amended_init_failure_state_unchanged (env : Env) (prefs : Preferences)
    (query : Option String) (st : ExtState) (k e : String)
    (hk : prefs.openai_api_key = some k) (hk0 : k ≠ "")
    (htrig : st.openai_client = none ∨
      st.current_base_url ≠ some (pyStrip (prefs.base_url.getD "")))
    (hfail : env.initErr (clientFor k (pyStrip (prefs.base_url.getD ""))) = some e) :
    on_event env prefs query st =
      ⟨[initErrorItem e], st, [clientFor k (pyStrip (prefs.base_url.getD ""))], []⟩ :=
  on_event_init_failure env prefs query st k e hk hk0 htrig hfail

/-- Witness for the amended C3 at a concrete input. -/
theorem C3_amended_init_failure_state_unchanged_witness :
    on_event (chatFailEnv "boom") ⟨some "k", some "b", some "", some ""⟩
        (some "hi") ⟨some ⟨"k", some "a"⟩, some "a"⟩ =
      ⟨[initErrorItem "boom"], ⟨some ⟨"k", some "a"⟩, some "a"⟩,
       [clientFor "k" (pyStrip ((some "b").getD ""))], []⟩ :=
  C3_amended_init_failure_state_unchanged (chatFailEnv "boom")
    ⟨some "k", some "b", some "", some ""⟩ (some "hi")
    ⟨some ⟨"k", some "a"⟩, some "a"⟩ "k" "boom" rfl (by decide)
    (Or.inr (by decide)) rfl

/-- C10: when the query handler returns early on a falsy api key it leaves
the whole extension state exactly as it was, while the preferences handler on
a falsy api key sets the cached client to none (leaving the recorded base url
untouched). -/
theorem C10_missing_key_frame (env env2 : Env) (prefs : Preferences)
    (query : Option String) (st : ExtState)
    (h : prefs.openai_api_key = none ∨ prefs.openai_api_key = some "") :
    (KeywordQueryEventListener.on_event env prefs query st).state = st ∧
    (PreferencesEventListener.on_event env2 prefs st).openai_client = none ∧
    (PreferencesEventListener.on_event env2 prefs st).current_base_url =
      st.current_base_url := by
  unfold KeywordQueryEventListener.on_event PreferencesEventListener.on_event
  rcases h with h | h <;> rw [h] <;> exact ⟨rfl, rfl, rfl⟩

/-- Witness for C10 at a concrete input with a cached client. -/
theorem C10_missing_key_frame_witness :
    (KeywordQueryEventListener.on_event (okEnv "x") ⟨some "", some "b", none, none⟩
        (some "hi") ⟨some ⟨"k", some "a"⟩, some "a"⟩).state =
      ⟨some ⟨"k", some "a"⟩, some "a"⟩ ∧
    (PreferencesEventListener.on_event (okEnv "x") ⟨some "", some "b", none, none⟩
        ⟨some ⟨"k", some "a"⟩, some "a"⟩).openai_client = none ∧
    (PreferencesEventListener.on_event (okEnv "x") ⟨some "", some "b", none, none⟩
        ⟨some ⟨"k", some "a"⟩, some "a"⟩).current_base_url = some "a" :=
  C10_missing_key_frame (okEnv "x") (okEnv "x") ⟨some "", some "b", none, none⟩
    (some "hi") ⟨some ⟨"k", some "a"⟩, some "a"⟩ (Or.inr rfl)

end UlauncherOpenAITranslate
